import Mathlib

/-!
Verification of the smart-surveillance alert pipeline and biometric fusion logic.

Shallow embedding of:
- app/services/alert_service.py   (AlertService)
- app/services/biometric_service.py (BiometricService)
- app/api/v1/biometric.py         (registration/authentication endpoints)
- app/core/config.py              (the settings the above consume)

Python dicts are modelled as association lists with first-match lookup and
in-place update (matching dict insertion/update semantics); datetimes are
modelled as integer seconds; floats as rationals; external collaborators
(face_recognition, cv2, hashlib, notification transports) are modelled as
oracle parameters supplying the values the libraries would compute.
-/

/-- Association-list lookup: first binding of the key, as Python dict access. -/
def assocGet {α β : Type} [DecidableEq α] : List (α × β) → α → Option β
  | [], _ => none
  | (k', v') :: rest, k => if k' = k then some v' else assocGet rest k

/-- Association-list update: replaces the first binding of the key in place,
or appends a new binding, matching Python dict assignment. -/
def assocSet {α β : Type} [DecidableEq α] : List (α × β) → α → β → List (α × β)
  | [], k, v => [(k, v)]
  | (k', v') :: rest, k, v =>
      if k' = k then (k, v) :: rest else (k', v') :: assocSet rest k v

/-- Increment a counter map entry, as stats[key] = stats.get(key, 0) + 1. -/
def bumpCount {α : Type} [DecidableEq α] (m : List (α × Nat)) (k : α) : List (α × Nat) :=
  assocSet m k (((assocGet m k).getD 0) + 1)

/-- Sum of the values of a counter map. -/
def sumSnd {α : Type} (m : List (α × Nat)) : Nat :=
  (m.map Prod.snd).sum

/-- Settings consumed by the services (app/core/config.py); field defaults are
the config defaults (ALERT_COOLDOWN = 60, channel flags off unless set in the
environment, FACE_RECOGNITION_TOLERANCE = 0.6, IRIS_RECOGNITION_ENABLED = True). -/
structure Settings where
  ALERT_COOLDOWN : Int := 60
  EMAIL_ENABLED : Bool := false
  SMS_ENABLED : Bool := false
  WEBHOOK_URL : Option String := none
  FACE_RECOGNITION_TOLERANCE : ℚ := 6/10
  IRIS_RECOGNITION_ENABLED : Bool := true

/-- Python truthiness of an optional string (None and the empty string are falsy). -/
def optStrTruthy : Option String → Bool
  | none => false
  | some u => u ≠ ""

/-- The ai_analysis payload as create_alert inspects it: an optional
confidence_scores map of named scores. -/
structure AiAnalysis where
  confidence_scores : Option (List (String × ℚ)) := none
deriving DecidableEq

/-- Modelled from the spec: the Alert data model (app/models/alert.py is not
under src/). Fields follow section 3 of the spec: a freshly constructed alert
has status active, no acknowledging user, unset acknowledgment/resolution
timestamps and response time, and all three delivery flags false. Opaque
structured payloads (coordinates, detected_objects, biometric_data) are kept
as uninterpreted optional strings. -/
structure Alert where
  id : Int := 0
  alert_type : String
  severity : String
  title : String := ""
  description : Option String := none
  camera_id : Option Int := none
  location : Option String := none
  coordinates : Option String := none
  detected_objects : Option String := none
  biometric_data : Option String := none
  ai_analysis : Option AiAnalysis := none
  image_path : Option String := none
  video_path : Option String := none
  confidence_score : ℚ := 0
  status : String := "active"
  user_id : Option Int := none
  created_at : Int := 0
  updated_at : Option Int := none
  acknowledged_at : Option Int := none
  resolved_at : Option Int := none
  response_time : Option Int := none
  email_sent : Bool := false
  sms_sent : Bool := false
  webhook_sent : Bool := false
deriving DecidableEq

/-- The mutable state of AlertService: the cooldown-stamp dict and the
in-memory alert store. -/
structure AlertState where
  alert_cooldowns : List (String × Int) := []
  active_alerts : List (Int × Alert) := []
deriving DecidableEq

/-- Python rendering of an optional value inside an f-string (None prints as None). -/
def pyOptStr {α : Type} [ToString α] : Option α → String
  | none => "None"
  | some x => toString x

/-- The suppression key built by create_alert: the f-string
alert_type_camera_id_location. -/
def cooldownKey (alert_type : String) (camera_id : Option Int) (location : Option String) : String :=
  alert_type ++ "_" ++ pyOptStr camera_id ++ "_" ++ pyOptStr location

/-- AlertService._is_in_cooldown: the key is in cooldown when it was stamped
less than ALERT_COOLDOWN seconds ago. -/
def is_in_cooldown (cfg : Settings) (cooldowns : List (String × Int)) (key : String) (now : Int) : Bool :=
  match assocGet cooldowns key with
  | none => false
  | some last => now - last < cfg.ALERT_COOLDOWN

/-- Maximum of the values of a confidence-score map (Python max on a nonempty
dict of values), 0 for an empty map. -/
def maxScores : List (String × ℚ) → ℚ
  | [] => 0
  | (_, v) :: rest => rest.foldl (fun m p => max m p.2) v

/-- AlertService._send_notifications: updates the delivery flags of the alert
for each enabled channel; the transport outcome is the external deliver oracle.
The push notification sets no alert field. -/
def send_notifications (cfg : Settings) (deliver : String → Bool) (alert : Alert) : Alert :=
  let a1 := if cfg.EMAIL_ENABLED then { alert with email_sent := deliver "email" } else alert
  let a2 := if cfg.SMS_ENABLED then { a1 with sms_sent := deliver "sms" } else a1
  if optStrTruthy cfg.WEBHOOK_URL then { a2 with webhook_sent := deliver "webhook" } else a2

/-- The confidence score create_alert derives from the AI-analysis payload:
the maximum of the attached confidence scores, 0 when the payload or the
score map is absent (0 is also the constructed alert default the source
leaves in place in that case). -/
def derivedConfidence : Option AiAnalysis → ℚ
  | some an =>
      match an.confidence_scores with
      | some scores => maxScores scores
      | none => 0
  | none => 0

/-- The Alert object create_alert constructs before storing it: the supplied
fields, created_at now, the derived confidence score, and id = store size + 1. -/
def builtAlert (s : AlertState) (now : Int)
    (alert_type severity title : String) (description : Option String)
    (camera_id : Option Int) (location : Option String)
    (coordinates detected_objects biometric_data : Option String)
    (ai_analysis : Option AiAnalysis)
    (image_path video_path : Option String) : Alert :=
  { alert_type := alert_type, severity := severity, title := title,
    description := description, camera_id := camera_id, location := location,
    coordinates := coordinates, detected_objects := detected_objects,
    biometric_data := biometric_data, ai_analysis := ai_analysis,
    image_path := image_path, video_path := video_path, created_at := now,
    confidence_score := derivedConfidence ai_analysis,
    id := (s.active_alerts.length : Int) + 1 }

/-- AlertService.create_alert: checks the cooldown (returning none, the
Suppressed outcome, with the state untouched when active), otherwise builds
the alert, derives confidence_score from the ai_analysis payload, assigns
id = store size + 1, stores it, stamps the cooldown key, and sends
notifications (which update the delivery flags of the stored alert object). -/
def create_alert (cfg : Settings) (deliver : String → Bool) (s : AlertState) (now : Int)
    (alert_type severity title : String) (description : Option String)
    (camera_id : Option Int) (location : Option String)
    (coordinates detected_objects biometric_data : Option String)
    (ai_analysis : Option AiAnalysis)
    (image_path video_path : Option String) : Option Alert × AlertState :=
  let key := cooldownKey alert_type camera_id location
  if is_in_cooldown cfg s.alert_cooldowns key now then
    (none, s)
  else
    let withId : Alert :=
      builtAlert s now alert_type severity title description camera_id location
        coordinates detected_objects biometric_data ai_analysis image_path video_path
    let stored : Alert := send_notifications cfg deliver withId
    (some stored,
      { alert_cooldowns := assocSet s.alert_cooldowns key now,
        active_alerts := assocSet s.active_alerts withId.id stored })

theorem builtAlert_id (s : AlertState) (now : Int)
    (aty sv ti : String) (d : Option String) (cam : Option Int) (loc : Option String)
    (co dob bio : Option String) (ai : Option AiAnalysis) (ip vp : Option String) :
    (builtAlert s now aty sv ti d cam loc co dob bio ai ip vp).id =
      (s.active_alerts.length : Int) + 1 := rfl

theorem builtAlert_status (s : AlertState) (now : Int)
    (aty sv ti : String) (d : Option String) (cam : Option Int) (loc : Option String)
    (co dob bio : Option String) (ai : Option AiAnalysis) (ip vp : Option String) :
    (builtAlert s now aty sv ti d cam loc co dob bio ai ip vp).status = "active" := rfl

/-- AlertService.acknowledge_alert: false for an unknown id; a no-op returning
true when the alert is already acknowledged; otherwise sets status acknowledged,
records the user and timestamp and the provisional response time. -/
def acknowledge_alert (s : AlertState) (alert_id user_id : Int) (now : Int) : Bool × AlertState :=
  match assocGet s.active_alerts alert_id with
  | none => (false, s)
  | some alert =>
      if alert.status = "acknowledged" then (true, s)
      else
        let alert1 : Alert :=
          { alert with
              status := "acknowledged"
              user_id := some user_id
              acknowledged_at := some now
              response_time := some (now - alert.created_at) }
        (true, { s with active_alerts := assocSet s.active_alerts alert_id alert1 })

/-- AlertService.resolve_alert: false for an unknown id; a no-op returning true
when already resolved; otherwise sets status resolved, records the user and
timestamp, and recomputes response_time from acknowledged_at when that is set,
else from created_at. -/
def resolve_alert (s : AlertState) (alert_id user_id : Int) (now : Int) : Bool × AlertState :=
  match assocGet s.active_alerts alert_id with
  | none => (false, s)
  | some alert =>
      if alert.status = "resolved" then (true, s)
      else
        let base : Int :=
          match alert.acknowledged_at with
          | some t => t
          | none => alert.created_at
        let alert1 : Alert :=
          { alert with
              status := "resolved"
              user_id := some user_id
              resolved_at := some now
              response_time := some (now - base) }
        (true, { s with active_alerts := assocSet s.active_alerts alert_id alert1 })

/-- AlertService.update_alert restricted to the scalar allowed fields the
data model carries; a supplied value overwrites the field, an absent keyword
leaves it unchanged; updated_at is stamped. -/
def update_alert (s : AlertState) (alert_id : Int) (now : Int)
    (description severity status location : Option String) : Bool × AlertState :=
  match assocGet s.active_alerts alert_id with
  | none => (false, s)
  | some alert =>
      let alert1 : Alert :=
        { alert with
          description := match description with | some d => some d | none => alert.description,
          severity := severity.getD alert.severity,
          status := status.getD alert.status,
          location := match location with | some l => some l | none => alert.location,
          updated_at := some now }
      (true, { s with active_alerts := assocSet s.active_alerts alert_id alert1 })

/-- AlertService.cleanup_old_alerts: removes alerts that are resolved with a
resolution timestamp older than the retention horizon. -/
def cleanup_old_alerts (s : AlertState) (now : Int) (retention_days : Int) : AlertState :=
  let cutoff : Int := now - retention_days * 86400
  { s with active_alerts :=
      s.active_alerts.filter (fun p =>
        !(p.2.status = "resolved" &&
          (match p.2.resolved_at with
           | some r => decide (r < cutoff)
           | none => false))) }

/-- The statistics dict computed by AlertService.get_alert_statistics. -/
structure AlertStats where
  total_alerts : Nat
  by_severity : List (String × Nat)
  by_type : List (String × Nat)
  by_status : List (String × Nat)
  by_camera : List (String × Nat)
  response_times : List Int
  average_response_time : ℚ
  unresolved_alerts : Nat
  date_range : Int × Int
deriving DecidableEq

/-- AlertService.get_alert_statistics: defaults the window to the trailing 30
days, filters alerts whose created_at falls in the inclusive range, and
aggregates counts by severity, type, status and camera (a camera id of 0 is
falsy in Python and is skipped, as is a response time of 0). -/
def get_alert_statistics (s : AlertState) (now : Int)
    (start_date end_date : Option Int) : AlertStats :=
  let start := start_date.getD (now - 30 * 86400)
  let stop := end_date.getD now
  let alerts := (s.active_alerts.map Prod.snd).filter
    (fun a => decide (start ≤ a.created_at) && decide (a.created_at ≤ stop))
  let response_times := alerts.filterMap (fun a =>
    match a.response_time with
    | some r => if r ≠ 0 then some r else none
    | none => none)
  { total_alerts := alerts.length,
    by_severity := alerts.foldl (fun m a => bumpCount m a.severity) [],
    by_type := alerts.foldl (fun m a => bumpCount m a.alert_type) [],
    by_status := alerts.foldl (fun m a => bumpCount m a.status) [],
    by_camera := alerts.foldl (fun m a =>
      match a.camera_id with
      | some c => if c ≠ 0 then bumpCount m (toString c) else m
      | none => m) [],
    response_times := response_times,
    average_response_time :=
      if response_times.length ≠ 0 then
        ((response_times.map (fun r => (r : ℚ))).sum) / (response_times.length : ℚ)
      else 0,
    unresolved_alerts := (alerts.filter (fun a => a.status = "active")).length,
    date_range := (start, stop) }

/-- A per-modality authentication result dict as the BiometricService methods
return it: the success flag, the matched user, the confidence, and the
optional method, error and distance entries. -/
structure MResult where
  success : Bool
  user_id : Option Int := none
  confidence : ℚ := 0
  method : Option String := none
  error : Option String := none
  distance : Option ℚ := none
deriving DecidableEq

/-- Oracle view of a decoded image: the values the external libraries (cv2,
face_recognition) would compute on it — the Laplacian variance used by
liveness detection, the detected face locations and encodings, and the raw
bytes iris templating hashes. -/
structure ImageOracle (Enc : Type) where
  variance : ℚ
  face_locations : List Unit := []
  face_encodings : List Enc := []
  bytes : List Int := []
deriving DecidableEq

/-- BiometricService.detect_liveness output. -/
structure LivenessOut where
  is_live : Bool
  confidence : ℚ
  quality_score : ℚ
deriving DecidableEq

/-- BiometricService.detect_liveness: live when the Laplacian variance of the
image exceeds the blur threshold 100. -/
def detect_liveness {Enc : Type} (img : ImageOracle Enc) : LivenessOut :=
  { is_live := decide (100 < img.variance),
    confidence := min (img.variance / 1000) 1,
    quality_score := img.variance }

/-- The search-all loop of BiometricService.authenticate_face: keeps the
stored user whose distance clears the tolerance with the strictly best
confidence so far. -/
def faceSearchLoop {Enc : Type} (dist : Enc → Enc → ℚ) (tol : ℚ) (unknown : Enc) :
    List (Int × Enc) → Option Int → ℚ → Option Int × ℚ
  | [], best, bestc => (best, bestc)
  | (uid, enc) :: rest, best, bestc =>
      let d := dist enc unknown
      let c := 1 - d
      if d ≤ tol ∧ bestc < c then faceSearchLoop dist tol unknown rest (some uid) c
      else faceSearchLoop dist tol unknown rest best bestc

/-- The search-all branch of BiometricService.authenticate_face; a best match
of user id 0 is falsy in Python and reported as not recognized. -/
def faceSearch {Enc : Type} (dist : Enc → Enc → ℚ) (tol : ℚ)
    (cache : List (Int × Enc)) (unknown : Enc) : MResult :=
  match faceSearchLoop dist tol unknown cache none 0 with
  | (some best, bestc) =>
      if best ≠ 0 then
        { success := true, user_id := some best, confidence := bestc,
          method := some "face_recognition" }
      else { success := false, error := some "Face not recognized", confidence := 0 }
  | (none, _) => { success := false, error := some "Face not recognized", confidence := 0 }

/-- BiometricService.authenticate_face: rejects images without a detectable
face or extractable features; verifies against the specific user when a
truthy user_id with a cached encoding is supplied, otherwise searches all
registered encodings. -/
def authenticate_face {Enc : Type} (dist : Enc → Enc → ℚ) (tol : ℚ)
    (cache : List (Int × Enc)) (img : ImageOracle Enc) (user_id : Option Int) : MResult :=
  if img.face_locations = [] then
    { success := false, error := some "No face detected in image" }
  else
    match img.face_encodings with
    | [] => { success := false, error := some "Could not extract face features" }
    | unknown :: _ =>
        match user_id with
        | some u =>
            if u ≠ 0 then
              match assocGet cache u with
              | some known =>
                  let d := dist known unknown
                  { success := decide (d ≤ tol),
                    user_id := if d ≤ tol then some u else none,
                    confidence := 1 - d, distance := some d }
              | none => faceSearch dist tol cache unknown
            else faceSearch dist tol cache unknown
        | none => faceSearch dist tol cache unknown

/-- The search-all loop of fingerprint and iris authentication: the first
stored template whose hash equals the sample hash wins. -/
def hashSearch (label : String) (notRecognized : String) (h : String) :
    List (Int × String) → MResult
  | [] => { success := false, error := some notRecognized, confidence := 0 }
  | (uid, stored) :: rest =>
      if h = stored then
        { success := true, user_id := some uid, confidence := 1, method := some label }
      else hashSearch label notRecognized h rest

/-- BiometricService.authenticate_fingerprint: hashes the sample, verifies
against the specific user when a truthy user_id with a cached template is
supplied, otherwise searches all registered templates in order. -/
def authenticate_fingerprint (hash : List Int → String)
    (cache : List (Int × String)) (data : List Int) (user_id : Option Int) : MResult :=
  let h := hash data
  match user_id with
  | some u =>
      if u ≠ 0 then
        match assocGet cache u with
        | some stored =>
            { success := decide (h = stored),
              user_id := if h = stored then some u else none,
              confidence := if h = stored then 1 else 0,
              method := some "fingerprint" }
        | none => hashSearch "fingerprint" "Fingerprint not recognized" h cache
      else hashSearch "fingerprint" "Fingerprint not recognized" h cache
  | none => hashSearch "fingerprint" "Fingerprint not recognized" h cache

/-- BiometricService.authenticate_iris: identical shape to fingerprint
authentication, hashing the raw image bytes. -/
def authenticate_iris (hash : List Int → String)
    (cache : List (Int × String)) (imgBytes : List Int) (user_id : Option Int) : MResult :=
  let h := hash imgBytes
  match user_id with
  | some u =>
      if u ≠ 0 then
        match assocGet cache u with
        | some stored =>
            { success := decide (h = stored),
              user_id := if h = stored then some u else none,
              confidence := if h = stored then 1 else 0,
              method := some "iris" }
        | none => hashSearch "iris" "Iris not recognized" h cache
      else hashSearch "iris" "Iris not recognized" h cache
  | none => hashSearch "iris" "Iris not recognized" h cache

/-- The outcome of BiometricService.multi_modal_authentication: either the
early identity-mismatch failure dict or the aggregated result dict. -/
inductive FusionOut where
  | mismatch
  | result (success : Bool) (user_id : Option Int) (confidence : ℚ)
      (successful_modalities total_modalities : Nat) (detailed_results : List MResult)
deriving DecidableEq

/-- The success flag of a fusion outcome (the mismatch dict carries success false). -/
def FusionOut.successFlag : FusionOut → Bool
  | .mismatch => false
  | .result s _ _ _ _ _ => s

/-- The final aggregation step of multi_modal_authentication: the success
count over the attempted results, the accumulated confidence divided by the
number of attempted results, and the authentication decision. -/
def mmFinalize (results : List MResult) (tc : ℚ) (auth : Option Int) : FusionOut :=
  let successful := (results.filter (fun r => r.success)).length
  let avg : ℚ := if results.length ≠ 0 then tc / (results.length : ℚ) else 0
  FusionOut.result
    (decide (0 < successful) && decide ((7 : ℚ)/10 ≤ avg) && auth.isSome)
    auth avg successful results.length results

/-- The iris step of multi_modal_authentication: processed only when an iris
sample was supplied and iris recognition is enabled; a successful result with
an identity differing from the provisional one returns the mismatch dict. -/
def mmIris (en : Bool) (ir : Option MResult)
    (results : List MResult) (tc : ℚ) (auth : Option Int) : FusionOut :=
  match ir with
  | some r =>
      if en then
        if r.success then
          if auth = none then mmFinalize (results ++ [r]) (tc + r.confidence) r.user_id
          else if auth ≠ r.user_id then FusionOut.mismatch
          else mmFinalize (results ++ [r]) (tc + r.confidence) auth
        else mmFinalize (results ++ [r]) tc auth
      else mmFinalize results tc auth
  | none => mmFinalize results tc auth

/-- The fingerprint step of multi_modal_authentication, with the same
provisional-identity and mismatch handling as the iris step. -/
def mmFingerprint (en : Bool) (fp ir : Option MResult)
    (results : List MResult) (tc : ℚ) (auth : Option Int) : FusionOut :=
  match fp with
  | some r =>
      if r.success then
        if auth = none then mmIris en ir (results ++ [r]) (tc + r.confidence) r.user_id
        else if auth ≠ r.user_id then FusionOut.mismatch
        else mmIris en ir (results ++ [r]) (tc + r.confidence) auth
      else mmIris en ir (results ++ [r]) tc auth
  | none => mmIris en ir results tc auth

/-- BiometricService.multi_modal_authentication over the supplied per-modality
results (the per-modality authentications are the functions above; en is
settings.IRIS_RECOGNITION_ENABLED): the face result, when supplied and
successful, seeds the provisional identity and the confidence accumulator. -/
def multi_modal_authentication (en : Bool) (fr fp ir : Option MResult) : FusionOut :=
  match fr with
  | some r =>
      if r.success then mmFingerprint en fp ir [r] ((0 : ℚ) + r.confidence) r.user_id
      else mmFingerprint en fp ir [r] 0 none
  | none => mmFingerprint en fp ir [] 0 none

/-- A registration result dict of BiometricService.register_face /
register_fingerprint / register_iris. -/
structure RegOut where
  success : Bool
  error : Option String := none
  template : Option String := none
  quality : Option ℚ := none
  confidence : Option ℚ := none
deriving DecidableEq

/-- BiometricService.register_face: rejects images with zero or several faces
or no extractable features, otherwise caches the first encoding for the user. -/
def register_face {Enc : Type} (cache : List (Int × Enc)) (user_id : Int)
    (img : ImageOracle Enc) : RegOut × List (Int × Enc) :=
  if img.face_locations = [] then
    ({ success := false, error := some "No face detected in image" }, cache)
  else if 1 < img.face_locations.length then
    ({ success := false,
       error := some "Multiple faces detected. Please provide image with single face" }, cache)
  else
    match img.face_encodings with
    | [] => ({ success := false, error := some "Could not extract face features" }, cache)
    | enc :: _ =>
        ({ success := true, confidence := some 1 }, assocSet cache user_id enc)

/-- BiometricService.register_iris: hashes the raw image bytes and caches the
template unconditionally. -/
def register_iris (hash : List Int → String) (cache : List (Int × String)) (user_id : Int)
    (imgBytes : List Int) : RegOut × List (Int × String) :=
  let h := hash imgBytes
  ({ success := true, template := some h, quality := some (98/100) },
    assocSet cache user_id h)

/-- A BiometricRegistrationResponse of the API layer. -/
structure RegistrationResponse where
  success : Bool
  message : String
  template_id : Option String := none
  quality_score : Option ℚ := none
  error : Option String := none
deriving DecidableEq

/-- A BiometricAuthenticationResponse of the API layer. -/
structure AuthenticationResponse where
  success : Bool
  user_id : Option Int := none
  confidence : ℚ
  method : String
  error : Option String := none
deriving DecidableEq

/-- Outcome of an API endpoint: an HTTPException or a response body. -/
inductive EndpointResult (α : Type) where
  | httpError (code : Int) (detail : String)
  | ok (value : α)
deriving DecidableEq

/-- The authenticate_face endpoint of app/api/v1/biometric.py: file-type and
decode validation, then the liveness gate, then face authentication. -/
def authenticate_face_endpoint {Enc : Type} (dist : Enc → Enc → ℚ) (tol : ℚ)
    (cache : List (Int × Enc)) (content_type_ok : Bool)
    (decoded : Option (ImageOracle Enc)) (user_id : Option Int) :
    EndpointResult AuthenticationResponse :=
  if !content_type_ok then
    EndpointResult.httpError 400 "Invalid file type. Please upload an image."
  else
    match decoded with
    | none => EndpointResult.httpError 400 "Invalid image format"
    | some img =>
        if !(detect_liveness img).is_live then
          EndpointResult.ok
            { success := false, confidence := 0, method := "face",
              error := some "Liveness check failed" }
        else
          let r := authenticate_face dist tol cache img user_id
          EndpointResult.ok
            { success := r.success, user_id := r.user_id, confidence := r.confidence,
              method := "face", error := r.error }

/-- The authenticate_iris endpoint of app/api/v1/biometric.py: file-type and
decode validation, then iris authentication directly — the endpoint performs
no liveness check. -/
def authenticate_iris_endpoint (hash : List Int → String) (cache : List (Int × String))
    (content_type_ok : Bool) (decoded : Option (ImageOracle Unit)) (user_id : Option Int) :
    EndpointResult AuthenticationResponse :=
  if !content_type_ok then
    EndpointResult.httpError 400 "Invalid file type. Please upload an image."
  else
    match decoded with
    | none => EndpointResult.httpError 400 "Invalid image format"
    | some img =>
        let r := authenticate_iris hash cache img.bytes user_id
        EndpointResult.ok
          { success := r.success, user_id := r.user_id, confidence := r.confidence,
            method := "iris", error := r.error }

/-- The register_face endpoint: permission, file-type and decode validation,
then the liveness gate, then face registration; its quality_score echoes the
liveness quality score. -/
def register_face_endpoint {Enc : Type} (cache : List (Int × Enc))
    (is_admin : Bool) (current_uid user_id : Int) (content_type_ok : Bool)
    (decoded : Option (ImageOracle Enc)) :
    EndpointResult RegistrationResponse × List (Int × Enc) :=
  if !is_admin && current_uid ≠ user_id then
    (EndpointResult.httpError 403 "Insufficient permissions", cache)
  else if !content_type_ok then
    (EndpointResult.httpError 400 "Invalid file type. Please upload an image.", cache)
  else
    match decoded with
    | none => (EndpointResult.httpError 400 "Invalid image format", cache)
    | some img =>
        if !(detect_liveness img).is_live then
          (EndpointResult.ok
            { success := false, message := "Liveness check failed",
              error := some "Please provide a live image" }, cache)
        else
          let rc := register_face cache user_id img
          (EndpointResult.ok
            { success := rc.1.success,
              message := if rc.1.success then "Face registered successfully"
                         else "Face registration failed",
              template_id := if rc.1.success then some (toString user_id) else none,
              quality_score := some img.variance,
              error := rc.1.error }, rc.2)

/-- The register_iris endpoint: permission, file-type and decode validation,
then iris registration directly — the endpoint performs no liveness check. -/
def register_iris_endpoint (hash : List Int → String) (cache : List (Int × String))
    (is_admin : Bool) (current_uid user_id : Int) (content_type_ok : Bool)
    (decoded : Option (ImageOracle Unit)) :
    EndpointResult RegistrationResponse × List (Int × String) :=
  if !is_admin && current_uid ≠ user_id then
    (EndpointResult.httpError 403 "Insufficient permissions", cache)
  else if !content_type_ok then
    (EndpointResult.httpError 400 "Invalid file type. Please upload an image.", cache)
  else
    match decoded with
    | none => (EndpointResult.httpError 400 "Invalid image format", cache)
    | some img =>
        let rc := register_iris hash cache user_id img.bytes
        (EndpointResult.ok
          { success := rc.1.success,
            message := if rc.1.success then "Iris registered successfully"
                       else "Iris registration failed",
            template_id := if rc.1.success then some (toString user_id) else none,
            quality_score := some (rc.1.quality.getD 0),
            error := rc.1.error }, rc.2)

/-- The list of per-modality results entering fusion: the supplied face and
fingerprint results, and the iris result when supplied and enabled. -/
def suppliedList (en : Bool) (fr fp ir : Option MResult) : List MResult :=
  fr.toList ++ fp.toList ++ (if en then ir.toList else [])

/-- One identity-resolution step of fusion: a successful result fills an empty
provisional identity and never displaces a set one. -/
def resolveStep (auth : Option Int) (r : MResult) : Option Int :=
  if r.success then (if auth = none then r.user_id else auth) else auth

/-- Total confidence accumulated over the successful results. -/
def succConfSum (l : List MResult) : ℚ :=
  ((l.filter (fun r => r.success)).map (fun r => r.confidence)).sum

/-- Number of successful results. -/
def succCount (l : List MResult) : Nat :=
  (l.filter (fun r => r.success)).length

/-- The mean fusion computes: successful confidence total divided by the
number of ATTEMPTED modalities, 0 when none were attempted. -/
def fusionMean (l : List MResult) : ℚ :=
  if l.length ≠ 0 then succConfSum l / (l.length : ℚ) else 0

/-- No identity mismatch arises while folding the results: every successful
result agrees with the provisional identity accumulated so far. -/
def noMismatchb : Option Int → List MResult → Bool
  | _, [] => true
  | auth, r :: rest =>
      (!r.success || (decide (auth = none) || decide (auth = r.user_id))) &&
        noMismatchb (resolveStep auth r) rest

/-- Uniform list form of the fusion traversal, used to reason about
multi_modal_authentication by induction. -/
def fuseLoop : List MResult → List MResult → ℚ → Option Int → FusionOut
  | [], seen, tc, auth => mmFinalize seen tc auth
  | r :: rest, seen, tc, auth =>
      if r.success then
        if auth = none then fuseLoop rest (seen ++ [r]) (tc + r.confidence) r.user_id
        else if auth ≠ r.user_id then FusionOut.mismatch
        else fuseLoop rest (seen ++ [r]) (tc + r.confidence) auth
      else fuseLoop rest (seen ++ [r]) tc auth

/-- Stated from the claim wording, for refinement comparison only: fusion
success would require at least one successful modality, a mean confidence of
at least 0.7 over the SUCCESSFUL modalities, and a resolved identity. -/
def claimedFusionSuccess (l : List MResult) : Bool :=
  let succ := l.filter (fun r => r.success)
  decide (0 < succ.length) &&
    decide ((7 : ℚ)/10 ≤ ((succ.map (fun r => r.confidence)).sum) / (succ.length : ℚ)) &&
    (l.foldl resolveStep none).isSome

/-- Rank of an alert status along the forward lifecycle
active, acknowledged, resolved. -/
def statusRank (s : String) : Nat :=
  if s = "active" then 0
  else if s = "acknowledged" then 1
  else if s = "resolved" then 2
  else 0

/-- The lifecycle status values. -/
def validStatus (v : String) : Bool :=
  v = "active" || v = "acknowledged" || v = "resolved"

/-- A lifecycle operation on the alert store. -/
inductive AlertOp where
  | ack (alert_id user_id now : Int)
  | res (alert_id user_id now : Int)
  | upd (alert_id now : Int) (description severity status location : Option String)
deriving DecidableEq

/-- State reached by one lifecycle operation. -/
def applyOp (s : AlertState) : AlertOp → AlertState
  | AlertOp.ack i u n => (acknowledge_alert s i u n).2
  | AlertOp.res i u n => (resolve_alert s i u n).2
  | AlertOp.upd i n d sv st l => (update_alert s i n d sv st l).2

/-- State reached by a sequence of lifecycle operations. -/
def applyOps (s : AlertState) : List AlertOp → AlertState
  | [] => s
  | op :: rest => applyOps (applyOp s op) rest

/-- Side condition under which a lifecycle operation moves statuses forward:
acknowledge is not applied to a resolved alert, and an update supplies, if
anything, a valid status of rank at least the current one. -/
def goodOpb (s : AlertState) : AlertOp → Bool
  | AlertOp.ack i _ _ =>
      match assocGet s.active_alerts i with
      | some a => a.status ≠ "resolved"
      | none => true
  | AlertOp.res _ _ _ => true
  | AlertOp.upd i _ _ _ st _ =>
      match assocGet s.active_alerts i, st with
      | some a, some v => decide (statusRank a.status ≤ statusRank v) && validStatus v
      | _, _ => true

/-- The side condition holding along a whole operation sequence. -/
def goodSeqb (s : AlertState) : List AlertOp → Bool
  | [] => true
  | op :: rest => goodOpb s op && goodSeqb (applyOp s op) rest

/-- Every stored alert id is bounded by the store size; this is the invariant
that makes size-based id assignment fresh, and it holds along any
cleanup-free history. -/
def idsBoundedb (s : AlertState) : Bool :=
  s.active_alerts.all (fun p => p.1 ≤ (s.active_alerts.length : Int))

theorem assocGet_set_self {α β : Type} [DecidableEq α] (l : List (α × β)) (k : α) (v : β) :
    assocGet (assocSet l k v) k = some v := by
  induction l with
  | nil => simp [assocSet, assocGet]
  | cons p rest ih =>
      obtain ⟨k', v'⟩ := p
      by_cases h : k' = k
      · subst h
        simp [assocSet, assocGet]
      · simp [assocSet, assocGet, h, ih]

theorem assocGet_set_ne {α β : Type} [DecidableEq α] (l : List (α × β)) (k k1 : α) (v : β)
    (h : k1 ≠ k) : assocGet (assocSet l k v) k1 = assocGet l k1 := by
  induction l with
  | nil => simp [assocSet, assocGet, Ne.symm h]
  | cons p rest ih =>
      obtain ⟨k', v'⟩ := p
      by_cases hk : k' = k
      · subst hk
        simp [assocSet, assocGet, Ne.symm h]
      · simp only [assocSet, if_neg hk]
        by_cases hk1 : k' = k1
        · simp [assocGet, hk1]
        · simp [assocGet, hk1, ih]

theorem assocGet_mem {α β : Type} [DecidableEq α] (l : List (α × β)) (k : α) (b : β)
    (h : assocGet l k = some b) : (k, b) ∈ l := by
  induction l with
  | nil => simp [assocGet] at h
  | cons p rest ih =>
      obtain ⟨k', v'⟩ := p
      by_cases hk : k' = k
      · subst hk
        simp [assocGet] at h
        simp [h]
      · simp only [assocGet, if_neg hk] at h
        exact List.mem_cons_of_mem _ (ih h)

theorem mem_assocSet {α β : Type} [DecidableEq α] (l : List (α × β)) (k : α) (v : β) :
    ∀ p ∈ assocSet l k v, p = (k, v) ∨ p ∈ l := by
  induction l with
  | nil => simp [assocSet]
  | cons q rest ih =>
      obtain ⟨k', v'⟩ := q
      intro p hp
      by_cases hk : k' = k
      · subst hk
        simp only [assocSet, if_pos rfl] at hp
        rcases List.mem_cons.mp hp with h | h
        · exact Or.inl h
        · exact Or.inr (List.mem_cons_of_mem _ h)
      · simp only [assocSet, if_neg hk] at hp
        rcases List.mem_cons.mp hp with h | h
        · exact Or.inr (h ▸ List.mem_cons_self _ _)
        · rcases ih p h with h1 | h1
          · exact Or.inl h1
          · exact Or.inr (List.mem_cons_of_mem _ h1)

theorem assocSet_length_of_isSome {α β : Type} [DecidableEq α] (l : List (α × β)) (k : α) (v : β)
    (h : (assocGet l k).isSome) : (assocSet l k v).length = l.length := by
  induction l with
  | nil => simp [assocGet] at h
  | cons p rest ih =>
      obtain ⟨k', v'⟩ := p
      by_cases hk : k' = k
      · simp [assocSet, hk]
      · simp only [assocGet, if_neg hk] at h
        simp [assocSet, hk, ih h]

theorem assocSet_of_none {α β : Type} [DecidableEq α] (l : List (α × β)) (k : α) (v : β)
    (h : assocGet l k = none) : assocSet l k v = l ++ [(k, v)] := by
  induction l with
  | nil => simp [assocSet]
  | cons p rest ih =>
      obtain ⟨k', v'⟩ := p
      by_cases hk : k' = k
      · subst hk
        simp [assocGet] at h
      · simp only [assocGet, if_neg hk] at h
        simp [assocSet, hk, ih h]

theorem send_notifications_id (cfg : Settings) (deliver : String → Bool) (a : Alert) :
    (send_notifications cfg deliver a).id = a.id := by
  unfold send_notifications
  split_ifs <;> rfl

theorem send_notifications_status (cfg : Settings) (deliver : String → Bool) (a : Alert) :
    (send_notifications cfg deliver a).status = a.status := by
  unfold send_notifications
  split_ifs <;> rfl

/-- C6: resolving a not-yet-resolved alert returns true, sets resolved_at to
the resolution time, and computes response_time as resolved_at minus
acknowledged_at when acknowledged_at is set, else resolved_at minus
created_at. -/
theorem resolve_sets_response_time (s : AlertState) (i u now : Int) (a : Alert)
    (h1 : assocGet s.active_alerts i = some a) (h2 : a.status ≠ "resolved") :
    (resolve_alert s i u now).1 = true ∧
    assocGet (resolve_alert s i u now).2.active_alerts i =
      some { a with
              status := "resolved"
              user_id := some u
              resolved_at := some now
              response_time := some (now - (match a.acknowledged_at with
                                            | some t => t
                                            | none => a.created_at)) } := by
  unfold resolve_alert
  rw [h1]
  simp [h2, assocGet_set_self]

/-- An unacknowledged active alert created at time 5. -/
def alertEx1 : Alert := { alert_type := "motion", severity := "high", created_at := 5 }

/-- A store holding alertEx1 under id 1. -/
def stateEx1 : AlertState := { active_alerts := [(1, alertEx1)] }

/-- An acknowledged alert created at time 1 and acknowledged at time 8. -/
def alertEx2 : Alert := { alert_type := "motion", severity := "low", created_at := 1, status := "acknowledged", acknowledged_at := some 8 }

/-- A store holding alertEx2 under id 2. -/
def stateEx2 : AlertState := { active_alerts := [(2, alertEx2)] }

theorem resolve_sets_response_time_witness :
    ((resolve_alert stateEx1 1 7 12).1 = true ∧
      assocGet (resolve_alert stateEx1 1 7 12).2.active_alerts 1 =
        some { alertEx1 with status := "resolved", user_id := some 7, resolved_at := some 12, response_time := some 7 }) ∧
    ((resolve_alert stateEx2 2 7 12).1 = true ∧
      assocGet (resolve_alert stateEx2 2 7 12).2.active_alerts 2 =
        some { alertEx2 with status := "resolved", user_id := some 7, resolved_at := some 12, response_time := some 4 }) :=
  ⟨resolve_sets_response_time _ 1 7 12 _ (by rfl) (by decide),
   resolve_sets_response_time _ 2 7 12 _ (by rfl) (by decide)⟩

/-- The freshly acknowledged copy of an alert that acknowledge_alert writes. -/
def reacknowledged (a : Alert) (u now : Int) : Alert :=
  { a with status := "acknowledged", user_id := some u, acknowledged_at := some now, response_time := some (now - a.created_at) }

/-- C5 (amended): acknowledging an already-ACKNOWLEDGED alert returns true and
mutates nothing, so a repeated acknowledge leaves acknowledged_at unchanged;
but acknowledging an already-RESOLVED alert is not a no-op: it returns true
while re-acknowledging the alert, overwriting status, user_id, acknowledged_at
and response_time. -/
theorem acknowledge_idempotency (s : AlertState) (i u now : Int) (a : Alert)
    (h1 : assocGet s.active_alerts i = some a) :
    (a.status = "acknowledged" → acknowledge_alert s i u now = (true, s)) ∧
    (a.status = "resolved" →
      acknowledge_alert s i u now =
        (true, { s with active_alerts := assocSet s.active_alerts i (reacknowledged a u now) })) := by
  constructor
  · intro h
    unfold acknowledge_alert
    rw [h1]
    simp [h]
  · intro h
    unfold acknowledge_alert
    rw [h1]
    simp [h, reacknowledged]

/-- A resolved alert, acknowledged at 3 and resolved at 9. -/
def alertEx3 : Alert := { alert_type := "intrusion", severity := "high", created_at := 0, status := "resolved", user_id := some 3, acknowledged_at := some 3, resolved_at := some 9, response_time := some 6 }

/-- A store holding alertEx3 under id 1. -/
def stateEx3 : AlertState := { active_alerts := [(1, alertEx3)] }

theorem acknowledge_idempotency_witness :
    (acknowledge_alert stateEx2 2 7 20 = (true, stateEx2)) ∧
    (acknowledge_alert stateEx3 1 7 50 =
      (true, { stateEx3 with active_alerts := assocSet stateEx3.active_alerts 1 (reacknowledged alertEx3 7 50) })) :=
  ⟨(acknowledge_idempotency stateEx2 2 7 20 alertEx2 (by rfl)).1 (by rfl),
   (acknowledge_idempotency stateEx3 1 7 50 alertEx3 (by rfl)).2 (by rfl)⟩

/-- C5 counterexample: for an alert whose status is resolved, acknowledge
returns true but DOES mutate the store — the stored status drops back to
acknowledged and acknowledged_at changes from 3 to 50. -/
theorem acknowledge_resolved_mutation_cex :
    (acknowledge_alert stateEx3 1 7 50).1 = true ∧
    (assocGet stateEx3.active_alerts 1).map Alert.acknowledged_at = some (some 3) ∧
    (assocGet (acknowledge_alert stateEx3 1 7 50).2.active_alerts 1).map Alert.acknowledged_at =
      some (some 50) ∧
    (assocGet (acknowledge_alert stateEx3 1 7 50).2.active_alerts 1).map Alert.status =
      some "acknowledged" := by
  refine ⟨by decide, by decide, by decide, by decide⟩

/-- C1: create_alert with the suppression key in cooldown returns the
Suppressed outcome (none, not an error) and performs no state change; with no
active cooldown it returns a new alert stored with status active under its id,
and stamps exactly the one suppression key with the current time; and a call
at or after the end of the cooldown window is not suppressed. -/
theorem create_alert_cooldown_suppression (cfg : Settings) (deliver : String → Bool)
    (s : AlertState) (now : Int) (aty sv ti : String) (d : Option String)
    (cam : Option Int) (loc : Option String) (co dob bio : Option String)
    (ai : Option AiAnalysis) (ip vp : Option String) :
    (is_in_cooldown cfg s.alert_cooldowns (cooldownKey aty cam loc) now = true →
      create_alert cfg deliver s now aty sv ti d cam loc co dob bio ai ip vp = (none, s)) ∧
    (is_in_cooldown cfg s.alert_cooldowns (cooldownKey aty cam loc) now = false →
      ∃ a, (create_alert cfg deliver s now aty sv ti d cam loc co dob bio ai ip vp).1 = some a ∧
        a.status = "active" ∧
        assocGet (create_alert cfg deliver s now aty sv ti d cam loc co dob bio ai ip vp).2.active_alerts a.id = some a ∧
        assocGet (create_alert cfg deliver s now aty sv ti d cam loc co dob bio ai ip vp).2.alert_cooldowns (cooldownKey aty cam loc) = some now ∧
        ∀ k, k ≠ cooldownKey aty cam loc →
          assocGet (create_alert cfg deliver s now aty sv ti d cam loc co dob bio ai ip vp).2.alert_cooldowns k = assocGet s.alert_cooldowns k) ∧
    (∀ last, assocGet s.alert_cooldowns (cooldownKey aty cam loc) = some last →
      cfg.ALERT_COOLDOWN ≤ now - last →
      is_in_cooldown cfg s.alert_cooldowns (cooldownKey aty cam loc) now = false) := by
  refine ⟨?_, ?_, ?_⟩
  · intro h
    unfold create_alert
    simp [h]
  · intro h
    unfold create_alert
    simp only [h, Bool.false_eq_true, if_false]
    refine ⟨_, rfl, ?_, ?_, assocGet_set_self _ _ _, fun k hk => assocGet_set_ne _ _ _ _ hk⟩
    · rw [send_notifications_status]
      rfl
    · rw [send_notifications_id]
      exact assocGet_set_self _ _ _
  · intro last hlast hle
    unfold is_in_cooldown
    rw [hlast]
    simp only [decide_eq_false_iff_not, not_lt]
    omega

/-- Default settings of app/core/config.py. -/
def defaultSettings : Settings := {}

/-- Transport oracle under which no channel reports delivery. -/
def noDeliver : String → Bool := fun _ => false

/-- A state whose only cooldown stamp is motion_5_Lobby at time 0. -/
def stateCool : AlertState := { alert_cooldowns := [("motion_5_Lobby", 0)] }

theorem create_alert_cooldown_suppression_witness :
    (create_alert defaultSettings noDeliver stateCool 30 "motion" "medium" "t" none (some 5) (some "Lobby") none none none none none none = (none, stateCool)) ∧
    (∃ a, (create_alert defaultSettings noDeliver {} 0 "motion" "medium" "t" none (some 5) (some "Lobby") none none none none none none).1 = some a ∧
      a.status = "active" ∧
      assocGet (create_alert defaultSettings noDeliver {} 0 "motion" "medium" "t" none (some 5) (some "Lobby") none none none none none none).2.active_alerts a.id = some a ∧
      assocGet (create_alert defaultSettings noDeliver {} 0 "motion" "medium" "t" none (some 5) (some "Lobby") none none none none none none).2.alert_cooldowns (cooldownKey "motion" (some 5) (some "Lobby")) = some 0 ∧
      ∀ k, k ≠ cooldownKey "motion" (some 5) (some "Lobby") →
        assocGet (create_alert defaultSettings noDeliver {} 0 "motion" "medium" "t" none (some 5) (some "Lobby") none none none none none none).2.alert_cooldowns k = assocGet (({} : AlertState)).alert_cooldowns k) ∧
    (is_in_cooldown defaultSettings stateCool.alert_cooldowns (cooldownKey "motion" (some 5) (some "Lobby")) 60 = false) :=
  ⟨(create_alert_cooldown_suppression defaultSettings noDeliver stateCool 30 "motion" "medium" "t" none (some 5) (some "Lobby") none none none none none none).1 (by decide),
   (create_alert_cooldown_suppression defaultSettings noDeliver {} 0 "motion" "medium" "t" none (some 5) (some "Lobby") none none none none none none).2.1 (by decide),
   (create_alert_cooldown_suppression defaultSettings noDeliver stateCool 60 "motion" "medium" "t" none (some 5) (some "Lobby") none none none none none none).2.2 0 (by decide) (by decide)⟩

theorem sumSnd_bumpCount {α : Type} [DecidableEq α] (m : List (α × Nat)) (k : α) :
    sumSnd (bumpCount m k) = sumSnd m + 1 := by
  induction m with
  | nil => simp [bumpCount, assocGet, assocSet, sumSnd]
  | cons p rest ih =>
      obtain ⟨k', v'⟩ := p
      by_cases hk : k' = k
      · subst hk
        simp [bumpCount, assocGet, assocSet, sumSnd]
        omega
      · have h1 : bumpCount ((k', v') :: rest) k = (k', v') :: bumpCount rest k := by
          simp [bumpCount, assocGet, assocSet, hk]
        rw [h1]
        simp only [sumSnd, List.map_cons, List.sum_cons] at ih ⊢
        omega

theorem sumSnd_foldl_bump {α β : Type} [DecidableEq α] (f : β → α) (l : List β) :
    ∀ m : List (α × Nat),
      sumSnd (l.foldl (fun acc b => bumpCount acc (f b)) m) = sumSnd m + l.length := by
  induction l with
  | nil => intro m; simp
  | cons b rest ih =>
      intro m
      simp only [List.foldl_cons, List.length_cons]
      rw [ih (bumpCount m (f b)), sumSnd_bumpCount]
      omega

/-- C9: for every alert store and date range, the by-severity counts and the
by-status counts of get_alert_statistics each sum to total_alerts. -/
theorem alert_statistics_consistency (s : AlertState) (now : Int) (sd ed : Option Int) :
    sumSnd (get_alert_statistics s now sd ed).by_severity =
      (get_alert_statistics s now sd ed).total_alerts ∧
    sumSnd (get_alert_statistics s now sd ed).by_status =
      (get_alert_statistics s now sd ed).total_alerts := by
  unfold get_alert_statistics
  constructor
  · rw [sumSnd_foldl_bump (fun a : Alert => a.severity)]
    simp [sumSnd]
  · rw [sumSnd_foldl_bump (fun a : Alert => a.status)]
    simp [sumSnd]

/-- C3: when the face modality succeeds with one user and the fingerprint
modality succeeds with a different user, fusion returns the identity-mismatch
failure immediately, whatever the confidences and whatever the iris input. -/
theorem multi_modal_identity_mismatch (en : Bool) (ir : Option MResult)
    (u1 u2 : Int) (c1 c2 : ℚ) (m1 e1 : Option String) (d1 : Option ℚ)
    (m2 e2 : Option String) (d2 : Option ℚ) (h : u1 ≠ u2) :
    multi_modal_authentication en
      (some { success := true, user_id := some u1, confidence := c1, method := m1, error := e1, distance := d1 })
      (some { success := true, user_id := some u2, confidence := c2, method := m2, error := e2, distance := d2 })
      ir = FusionOut.mismatch := by
  simp [multi_modal_authentication, mmFingerprint, h]

theorem multi_modal_identity_mismatch_witness :
    multi_modal_authentication true
      (some { success := true, user_id := some 1, confidence := 99/100, method := none, error := none, distance := none })
      (some { success := true, user_id := some 2, confidence := 1, method := none, error := none, distance := none })
      none = FusionOut.mismatch :=
  multi_modal_identity_mismatch true none 1 2 (99/100) 1 none none none none none none (by decide)

/-- C10: when a user_id is supplied to a single-modality authentication but it
is 0 or has no enrolled template for that modality, the call silently behaves
exactly as the search-all-templates call with no user_id — so it can succeed
as a different user instead of failing the requested verification. -/
theorem single_modality_silent_fallback {Enc : Type} (dist : Enc → Enc → ℚ) (tol : ℚ)
    (fcache : List (Int × Enc)) (img : ImageOracle Enc)
    (hash : List Int → String) (fpcache : List (Int × String)) (data : List Int)
    (icache : List (Int × String)) (ibytes : List Int) (u : Int) :
    (u = 0 ∨ assocGet fcache u = none →
      authenticate_face dist tol fcache img (some u) = authenticate_face dist tol fcache img none) ∧
    (u = 0 ∨ assocGet fpcache u = none →
      authenticate_fingerprint hash fpcache data (some u) = authenticate_fingerprint hash fpcache data none) ∧
    (u = 0 ∨ assocGet icache u = none →
      authenticate_iris hash icache ibytes (some u) = authenticate_iris hash icache ibytes none) := by
  refine ⟨?_, ?_, ?_⟩
  · rintro (h | h)
    · subst h
      simp [authenticate_face]
    · simp [authenticate_face, h]
  · rintro (h | h)
    · subst h
      simp [authenticate_fingerprint]
    · simp [authenticate_fingerprint, h]
  · rintro (h | h)
    · subst h
      simp [authenticate_iris]
    · simp [authenticate_iris, h]

theorem single_modality_silent_fallback_witness :
    (authenticate_fingerprint (fun _ => "h") [(2, "h")] [0] (some 1) =
      authenticate_fingerprint (fun _ => "h") [(2, "h")] [0] none) ∧
    (authenticate_fingerprint (fun _ => "h") [(2, "h")] [0] (some 1)).success = true ∧
    (authenticate_fingerprint (fun _ => "h") [(2, "h")] [0] (some 1)).user_id = some 2 :=
  ⟨(single_modality_silent_fallback (fun _ _ => (0 : ℚ)) 0 ([] : List (Int × Unit))
      { variance := 0 } (fun _ => "h") [(2, "h")] [0] [(2, "h")] [0] 1).2.1
      (Or.inr (by decide)),
   by decide, by decide⟩

theorem succConfSum_cons (r : MResult) (l : List MResult) :
    succConfSum (r :: l) = (if r.success then r.confidence else 0) + succConfSum l := by
  by_cases h : r.success <;> simp [succConfSum, h]

theorem mmIris_eq_fuseLoop (en : Bool) (ir : Option MResult) (results : List MResult)
    (tc : ℚ) (auth : Option Int) :
    mmIris en ir results tc auth = fuseLoop (if en then ir.toList else []) results tc auth := by
  cases ir with
  | none => cases en <;> simp [mmIris, fuseLoop]
  | some r =>
      cases en with
      | false => simp [mmIris, fuseLoop]
      | true =>
          simp only [mmIris, Option.toList, if_true]
          by_cases hs : r.success
          · by_cases ha : auth = none
            · simp [fuseLoop, hs, ha]
            · by_cases hu : auth = r.user_id
              · simp [fuseLoop, hs, ha, hu]
              · simp [fuseLoop, hs, ha, hu]
          · simp [fuseLoop, hs]

theorem mmFingerprint_eq_fuseLoop (en : Bool) (fp ir : Option MResult) (results : List MResult)
    (tc : ℚ) (auth : Option Int) :
    mmFingerprint en fp ir results tc auth =
      fuseLoop (fp.toList ++ (if en then ir.toList else [])) results tc auth := by
  cases fp with
  | none => simp [mmFingerprint, mmIris_eq_fuseLoop]
  | some r =>
      simp only [mmFingerprint, Option.toList, List.cons_append, List.nil_append]
      by_cases hs : r.success
      · by_cases ha : auth = none
        · simp [fuseLoop, hs, ha, mmIris_eq_fuseLoop, Option.toList]
        · by_cases hu : auth = r.user_id
          · simp [fuseLoop, hs, ha, hu, mmIris_eq_fuseLoop, Option.toList]
          · simp [fuseLoop, hs, ha, hu]
      · simp [fuseLoop, hs, mmIris_eq_fuseLoop, Option.toList]

theorem multi_modal_eq_fuseLoop (en : Bool) (fr fp ir : Option MResult) :
    multi_modal_authentication en fr fp ir = fuseLoop (suppliedList en fr fp ir) [] 0 none := by
  cases fr with
  | none => simp [multi_modal_authentication, suppliedList, mmFingerprint_eq_fuseLoop]
  | some r =>
      simp only [multi_modal_authentication, suppliedList, Option.toList,
        List.cons_append, List.nil_append]
      by_cases hs : r.success
      · simp [fuseLoop, hs, mmFingerprint_eq_fuseLoop, Option.toList]
      · simp [fuseLoop, hs, mmFingerprint_eq_fuseLoop, Option.toList]

theorem fuseLoop_run (l : List MResult) : ∀ (seen : List MResult) (tc : ℚ) (auth : Option Int),
    noMismatchb auth l = true →
    fuseLoop l seen tc auth =
      mmFinalize (seen ++ l) (tc + succConfSum l) (l.foldl resolveStep auth) := by
  induction l with
  | nil =>
      intro seen tc auth _
      simp [fuseLoop, succConfSum]
  | cons r rest ih =>
      intro seen tc auth h
      simp only [noMismatchb, Bool.and_eq_true] at h
      obtain ⟨h1, h2⟩ := h
      by_cases hs : r.success
      · have hau : auth = none ∨ auth = r.user_id := by
          rw [hs] at h1
          simpa using h1
      
        have hstep : fuseLoop (r :: rest) seen tc auth =
            fuseLoop rest (seen ++ [r]) (tc + r.confidence) (resolveStep auth r) := by
          by_cases ha : auth = none
          · simp [fuseLoop, hs, ha, resolveStep]
          · rcases hau with h0 | h0
            · exact absurd h0 ha
            · subst h0
              simp [fuseLoop, hs, ha, resolveStep]
        rw [hstep, ih _ _ _ h2, succConfSum_cons]
        simp [hs, List.foldl_cons, add_assoc]
      · have hstep : fuseLoop (r :: rest) seen tc auth = fuseLoop rest (seen ++ [r]) tc auth := by
          simp [fuseLoop, hs]
        have hres : resolveStep auth r = auth := by simp [resolveStep, hs]
        rw [hres] at h2
        rw [hstep, ih _ _ _ h2, succConfSum_cons]
        simp [hs, hres, List.foldl_cons]

/-- C2 (amended): with no identity mismatch among the supplied modality
results, fusion succeeds exactly when at least one modality succeeded AND the
mean confidence — the successful-confidence total divided by the number of
ATTEMPTED modalities, failed ones counting zero, not the mean over successful
modalities only — is at least 0.7 AND an identity was resolved. -/
theorem multi_modal_mean_over_all (en : Bool) (fr fp ir : Option MResult)
    (h : noMismatchb none (suppliedList en fr fp ir) = true) :
    multi_modal_authentication en fr fp ir =
      FusionOut.result
        (decide (0 < succCount (suppliedList en fr fp ir)) &&
          decide ((7 : ℚ)/10 ≤ fusionMean (suppliedList en fr fp ir)) &&
          ((suppliedList en fr fp ir).foldl resolveStep none).isSome)
        ((suppliedList en fr fp ir).foldl resolveStep none)
        (fusionMean (suppliedList en fr fp ir))
        (succCount (suppliedList en fr fp ir))
        (suppliedList en fr fp ir).length
        (suppliedList en fr fp ir) ∧
    (∀ ok uid conf ns nt dr,
      multi_modal_authentication en fr fp ir = FusionOut.result ok uid conf ns nt dr →
      (ok = true ↔ 0 < ns ∧ (7 : ℚ)/10 ≤ conf ∧ uid.isSome = true)) := by
  have hmain : multi_modal_authentication en fr fp ir =
      FusionOut.result
        (decide (0 < succCount (suppliedList en fr fp ir)) &&
          decide ((7 : ℚ)/10 ≤ fusionMean (suppliedList en fr fp ir)) &&
          ((suppliedList en fr fp ir).foldl resolveStep none).isSome)
        ((suppliedList en fr fp ir).foldl resolveStep none)
        (fusionMean (suppliedList en fr fp ir))
        (succCount (suppliedList en fr fp ir))
        (suppliedList en fr fp ir).length
        (suppliedList en fr fp ir) := by
    rw [multi_modal_eq_fuseLoop, fuseLoop_run _ _ _ _ h]
    simp [mmFinalize, fusionMean, succCount]
  refine ⟨hmain, ?_⟩
  intro ok uid conf ns nt dr heq
  rw [hmain] at heq
  injection heq with e1 e2 e3 e4 e5 e6
  subst e1
  subst e2
  subst e3
  subst e4
  simp [Bool.and_eq_true, decide_eq_true_eq, and_assoc]

/-- A successful face result for user 1 with confidence 0.9. -/
def mrFace09 : MResult := { success := true, user_id := some 1, confidence := 9/10 }

/-- A successful fingerprint result for user 1 with confidence 0.8. -/
def mrFp08 : MResult := { success := true, user_id := some 1, confidence := 8/10, method := some "fingerprint" }

/-- A failed fingerprint result. -/
def mrFpFail : MResult := { success := false, confidence := 0, error := some "Fingerprint not recognized" }

theorem multi_modal_mean_over_all_witness :
    noMismatchb none (suppliedList true (some mrFace09) (some mrFp08) none) = true ∧
    multi_modal_authentication true (some mrFace09) (some mrFp08) none =
      FusionOut.result
        (decide (0 < succCount (suppliedList true (some mrFace09) (some mrFp08) none)) &&
          decide ((7 : ℚ)/10 ≤ fusionMean (suppliedList true (some mrFace09) (some mrFp08) none)) &&
          ((suppliedList true (some mrFace09) (some mrFp08) none).foldl resolveStep none).isSome)
        ((suppliedList true (some mrFace09) (some mrFp08) none).foldl resolveStep none)
        (fusionMean (suppliedList true (some mrFace09) (some mrFp08) none))
        (succCount (suppliedList true (some mrFace09) (some mrFp08) none))
        (suppliedList true (some mrFace09) (some mrFp08) none).length
        (suppliedList true (some mrFace09) (some mrFp08) none) :=
  ⟨by decide,
   (multi_modal_mean_over_all true (some mrFace09) (some mrFp08) none (by decide)).1⟩

/-- C2 counterexample: face succeeds with confidence 0.9 and fingerprint is
attempted but fails, with no identity mismatch; the mean over the SUCCESSFUL
modalities is 0.9, at least 0.7, with a resolved identity, so the claim
predicts fusion success — but the code divides the successful confidence by
the number of attempted modalities (0.45) and reports failure. -/
theorem multi_modal_mean_claim_cex :
    noMismatchb none (suppliedList true (some mrFace09) (some mrFpFail) none) = true ∧
    claimedFusionSuccess (suppliedList true (some mrFace09) (some mrFpFail) none) = true ∧
    (multi_modal_authentication true (some mrFace09) (some mrFpFail) none).successFlag = false := by
  refine ⟨by decide, ?_, ?_⟩
  · unfold claimedFusionSuccess suppliedList resolveStep
    simp [mrFace09, mrFpFail]
    norm_num
  · unfold multi_modal_authentication mmFingerprint mmIris mmFinalize
    simp [mrFace09, mrFpFail, FusionOut.successFlag]
    norm_num

theorem statusRank_le_one_of_ne_resolved (v : String) (h : v ≠ "resolved") :
    statusRank v ≤ 1 := by
  unfold statusRank
  by_cases h1 : v = "active"
  · simp [h1]
  · by_cases h2 : v = "acknowledged"
    · simp [h1, h2]
    · simp [h1, h2, h]

theorem statusRank_le_two (v : String) : statusRank v ≤ 2 := by
  unfold statusRank
  by_cases h1 : v = "active"
  · simp [h1]
  · by_cases h2 : v = "acknowledged"
    · simp [h1, h2]
    · by_cases h3 : v = "resolved"
      · simp [h1, h2, h3]
      · simp [h1, h2, h3]

theorem statusRank_two_resolved (v : String) (h : 2 ≤ statusRank v) : v = "resolved" := by
  unfold statusRank at h
  by_cases h1 : v = "active"
  · simp [h1] at h
  · by_cases h2 : v = "acknowledged"
    · simp [h1, h2] at h
    · by_cases h3 : v = "resolved"
      · exact h3
      · simp [h1, h2, h3] at h

theorem applyOp_forward (s : AlertState) (op : AlertOp) (i : Int) (a : Alert)
    (hg : goodOpb s op = true) (ha : assocGet s.active_alerts i = some a) :
    ∃ a1, assocGet (applyOp s op).active_alerts i = some a1 ∧
      statusRank a.status ≤ statusRank a1.status ∧
      (a.status = "resolved" → a1.status = "resolved") := by
  cases op with
  | ack j u n =>
      simp only [applyOp, acknowledge_alert]
      cases hj : assocGet s.active_alerts j with
      | none => exact ⟨a, by simp [ha], le_refl _, fun h => h⟩
      | some b =>
          by_cases hb : b.status = "acknowledged"
          · simp only [hb, if_pos rfl]
            exact ⟨a, ha, le_refl _, fun h => h⟩
          · simp only [if_neg hb]
            by_cases hij : i = j
            · subst hij
              rw [ha] at hj
              injection hj with hj1
              subst hj1
              refine ⟨_, assocGet_set_self _ _ _, ?_, ?_⟩
              · simp only [goodOpb, ha] at hg
                have hnr : a.status ≠ "resolved" := by simpa using hg
                show statusRank a.status ≤ statusRank "acknowledged"
                have hv : statusRank "acknowledged" = 1 := by simp [statusRank]
                rw [hv]
                exact statusRank_le_one_of_ne_resolved a.status hnr
              · intro h
                simp only [goodOpb, ha] at hg
                simp [h] at hg
            · exact ⟨a, by rw [assocGet_set_ne _ _ _ _ hij]; exact ha, le_refl _, fun h => h⟩
  | res j u n =>
      simp only [applyOp, resolve_alert]
      cases hj : assocGet s.active_alerts j with
      | none => exact ⟨a, by simp [ha], le_refl _, fun h => h⟩
      | some b =>
          by_cases hb : b.status = "resolved"
          · simp only [hb, if_pos rfl]
            exact ⟨a, ha, le_refl _, fun h => h⟩
          · simp only [if_neg hb]
            by_cases hij : i = j
            · subst hij
              rw [ha] at hj
              injection hj with hj1
              subst hj1
              refine ⟨_, assocGet_set_self _ _ _, ?_, ?_⟩
              · show statusRank a.status ≤ statusRank "resolved"
                have hv : statusRank "resolved" = 2 := by simp [statusRank]
                rw [hv]
                exact statusRank_le_two a.status
              · intro h
                rfl
            · exact ⟨a, by rw [assocGet_set_ne _ _ _ _ hij]; exact ha, le_refl _, fun h => h⟩
  | upd j n d sv st l =>
      simp only [applyOp, update_alert]
      cases hj : assocGet s.active_alerts j with
      | none => exact ⟨a, by simp [ha], le_refl _, fun h => h⟩
      | some b =>
          by_cases hij : i = j
          · subst hij
            rw [ha] at hj
            injection hj with hj1
            subst hj1
            refine ⟨_, assocGet_set_self _ _ _, ?_, ?_⟩
            · cases st with
              | none => simp
              | some v =>
                  simp only [goodOpb, ha] at hg
                  rw [Bool.and_eq_true] at hg
                  simpa using hg.1
            · intro h
              cases st with
              | none => simpa using h
              | some v =>
                  simp only [goodOpb, ha] at hg
                  rw [Bool.and_eq_true] at hg
                  have h1 : statusRank a.status ≤ statusRank v := by simpa using hg.1
                  rw [h] at h1
                  have : 2 ≤ statusRank v := by
                    simpa [statusRank] using h1
                  simpa using statusRank_two_resolved v this
          · exact ⟨a, by rw [assocGet_set_ne _ _ _ _ hij]; exact ha, le_refl _, fun h => h⟩

/-- C4 (amended): along any sequence of acknowledge, resolve and update
operations in which acknowledge is never applied to a resolved alert and
update never supplies a status of lower rank, every stored alert status only
moves forward along active, acknowledged, resolved, and a resolved alert
stays resolved. (Unrestricted, the code moves a resolved alert BACK to
acknowledged on acknowledge, and update_alert sets any supplied status.) -/
theorem alert_status_moves_forward (ops : List AlertOp) :
    ∀ (s : AlertState) (i : Int) (a a1 : Alert),
    goodSeqb s ops = true →
    assocGet s.active_alerts i = some a →
    assocGet (applyOps s ops).active_alerts i = some a1 →
    statusRank a.status ≤ statusRank a1.status ∧
    (a.status = "resolved" → a1.status = "resolved") := by
  induction ops with
  | nil =>
      intro s i a a1 _ ha hb
      simp only [applyOps] at hb
      rw [ha] at hb
      injection hb with hb1
      subst hb1
      exact ⟨le_refl _, fun h => h⟩
  | cons op rest ih =>
      intro s i a a1 hg ha hb
      simp only [goodSeqb, Bool.and_eq_true] at hg
      obtain ⟨hg1, hg2⟩ := hg
      obtain ⟨a2, h2, hr, hres⟩ := applyOp_forward s op i a hg1 ha
      simp only [applyOps] at hb
      obtain ⟨hr2, hres2⟩ := ih (applyOp s op) i a2 a1 hg2 h2 hb
      exact ⟨le_trans hr hr2, fun h => hres2 (hres h)⟩

/-- The alert stateEx1 holds after acknowledge at 20 and resolve at 30. -/
def alertEx1Final : Alert := { alertEx1 with status := "resolved", user_id := some 7, acknowledged_at := some 20, resolved_at := some 30, response_time := some 10 }

theorem alert_status_moves_forward_witness :
    goodSeqb stateEx1 [AlertOp.ack 1 7 20, AlertOp.res 1 7 30] = true ∧
    (statusRank alertEx1.status ≤ statusRank alertEx1Final.status ∧
      (alertEx1.status = "resolved" → alertEx1Final.status = "resolved")) :=
  ⟨by decide,
   alert_status_moves_forward [AlertOp.ack 1 7 20, AlertOp.res 1 7 30] stateEx1 1
     alertEx1 alertEx1Final (by decide) (by decide) (by decide)⟩

/-- C4 counterexample: an acknowledge operation applied to a RESOLVED alert
moves its status rank backwards, from resolved (2) to acknowledged (1) — so
resolved is not terminal and status does not only move forward. -/
theorem acknowledge_resolved_backward_cex :
    (assocGet stateEx3.active_alerts 1).map (fun a => statusRank a.status) = some 2 ∧
    (assocGet (applyOps stateEx3 [AlertOp.ack 1 7 100]).active_alerts 1).map
      (fun a => statusRank a.status) = some 1 :=
  ⟨by decide, by decide⟩

theorem idsBoundedb_iff (s : AlertState) :
    idsBoundedb s = true ↔ ∀ p ∈ s.active_alerts, p.1 ≤ (s.active_alerts.length : Int) := by
  simp [idsBoundedb, List.all_eq_true]

theorem idsBoundedb_set_existing (s : AlertState) (k : Int) (v : Alert)
    (hk : (assocGet s.active_alerts k).isSome) (hinv : idsBoundedb s = true) :
    idsBoundedb { s with active_alerts := assocSet s.active_alerts k v } = true := by
  rw [idsBoundedb_iff] at hinv ⊢
  intro p hp
  rw [assocSet_length_of_isSome _ _ _ hk]
  rcases mem_assocSet _ _ _ p hp with h | h
  · subst h
    obtain ⟨b, hb⟩ := Option.isSome_iff_exists.mp hk
    exact hinv (k, b) (assocGet_mem _ _ _ hb)
  · exact hinv p h

theorem assocGet_next_id_none (l : List (Int × Alert))
    (hb : ∀ p ∈ l, p.1 ≤ (l.length : Int)) :
    assocGet l ((l.length : Int) + 1) = none := by
  cases h : assocGet l ((l.length : Int) + 1) with
  | none => rfl
  | some b =>
      have h1 := hb _ (assocGet_mem _ _ _ h)
      simp at h1

/-- C7 (amended): create_alert assigns id = store size + 1, so in any state
whose stored ids are bounded by the store size — true of the empty store and
preserved by create, acknowledge, resolve and update, but broken when
cleanup_old_alerts removes alerts — the new id is strictly greater than every
stored id and the bound is preserved. After cleanup has pruned alerts, an id
can be reused. -/
theorem alert_id_fresh_without_cleanup (cfg : Settings) (deliver : String → Bool)
    (s : AlertState) (now : Int) (aty sv ti : String) (d : Option String)
    (cam : Option Int) (loc : Option String) (co dob bio : Option String)
    (ai : Option AiAnalysis) (ip vp : Option String)
    (hinv : idsBoundedb s = true) :
    (∀ a st, create_alert cfg deliver s now aty sv ti d cam loc co dob bio ai ip vp = (some a, st) →
      (∀ p ∈ s.active_alerts, p.1 < a.id) ∧ idsBoundedb st = true) ∧
    (∀ i u n, idsBoundedb (acknowledge_alert s i u n).2 = true) ∧
    (∀ i u n, idsBoundedb (resolve_alert s i u n).2 = true) ∧
    (∀ i n d2 sv2 st2 l2, idsBoundedb (update_alert s i n d2 sv2 st2 l2).2 = true) := by
  have hball := (idsBoundedb_iff s).mp hinv
  refine ⟨?_, ?_, ?_, ?_⟩
  · intro a st heq
    by_cases hc : is_in_cooldown cfg s.alert_cooldowns (cooldownKey aty cam loc) now = true
    · unfold create_alert at heq
      rw [if_pos hc] at heq
      exact absurd (congrArg Prod.fst heq) (by simp)
    · unfold create_alert at heq
      rw [if_neg hc] at heq
      have hnone := assocGet_next_id_none s.active_alerts hball
      injection heq with heq1 heq2
      injection heq1 with heq1
      have haid : a.id = (s.active_alerts.length : Int) + 1 := by
        rw [← heq1, send_notifications_id, builtAlert_id]
      constructor
      · intro p hp
        have hple := hball p hp
        rw [haid]
        omega
      · rw [← heq2, idsBoundedb_iff]
        intro p hp
        simp only [builtAlert_id] at hp ⊢
        rw [assocSet_of_none _ _ _ hnone] at hp ⊢
        simp only [List.length_append, List.length_cons, List.length_nil]
        rcases List.mem_append.mp hp with h | h
        · have := hball p h
          push_cast
          omega
        · rw [List.mem_singleton] at h
          subst h
          push_cast
          omega
  · intro i u n
    unfold acknowledge_alert
    cases hj : assocGet s.active_alerts i with
    | none => exact hinv
    | some b =>
        by_cases hb : b.status = "acknowledged"
        · simp only [hb, if_pos rfl]
          exact hinv
        · simp only [if_neg hb]
          exact idsBoundedb_set_existing s i _ (by rw [hj]; rfl) hinv
  · intro i u n
    unfold resolve_alert
    cases hj : assocGet s.active_alerts i with
    | none => exact hinv
    | some b =>
        by_cases hb : b.status = "resolved"
        · simp only [hb, if_pos rfl]
          exact hinv
        · simp only [if_neg hb]
          exact idsBoundedb_set_existing s i _ (by rw [hj]; rfl) hinv
  · intro i n d2 sv2 st2 l2
    unfold update_alert
    cases hj : assocGet s.active_alerts i with
    | none => exact hinv
    | some b => exact idsBoundedb_set_existing s i _ (by rw [hj]; rfl) hinv

/-- The alert created on top of stateEx1 at time 3: it receives id 2. -/
def alertW : Alert := { alert_type := "motion", severity := "low", title := "t", created_at := 3, id := 2 }

/-- The state after that creation: the key motion_None_None stamped and the
new alert stored beside the old one. -/
def stateW2 : AlertState := { alert_cooldowns := [("motion_None_None", 3)], active_alerts := [(1, alertEx1), (2, alertW)] }

theorem alert_id_fresh_without_cleanup_witness :
    idsBoundedb stateEx1 = true ∧
    ((1 : Int), alertEx1).1 < alertW.id ∧
    idsBoundedb stateW2 = true ∧
    idsBoundedb (acknowledge_alert stateEx1 1 7 9).2 = true :=
  ⟨by decide,
   ((alert_id_fresh_without_cleanup defaultSettings noDeliver stateEx1 3 "motion" "low" "t"
        none none none none none none none none none (by decide)).1 alertW stateW2
      (by decide)).1 ((1 : Int), alertEx1) (by decide),
   ((alert_id_fresh_without_cleanup defaultSettings noDeliver stateEx1 3 "motion" "low" "t"
        none none none none none none none none none (by decide)).1 alertW stateW2
      (by decide)).2,
   (alert_id_fresh_without_cleanup defaultSettings noDeliver stateEx1 3 "motion" "low" "t"
        none none none none none none none none none (by decide)).2.1 1 7 9⟩

/-- C7 counterexample: create at time 0 assigns id 1; after that alert is
resolved and pruned by cleanup_old_alerts, the next create assigns id 1
again — the new id is NOT strictly greater than every previously assigned id,
which is reused. -/
theorem alert_id_reuse_after_cleanup_cex :
    ((create_alert defaultSettings noDeliver {} 0 "motion" "medium" "t" none (some 5)
        (some "Lobby") none none none none none none).1.map Alert.id = some 1) ∧
    ((create_alert defaultSettings noDeliver
        (cleanup_old_alerts
          (resolve_alert
            (create_alert defaultSettings noDeliver {} 0 "motion" "medium" "t" none (some 5)
              (some "Lobby") none none none none none none).2 1 7 10).2
          10000000 30)
        10000000 "motion" "medium" "t" none (some 5) (some "Lobby")
        none none none none none none).1.map Alert.id = some 1) :=
  ⟨by decide, by decide⟩

/-- C8 (amended): the liveness pre-check guards only the FACE endpoints: with
valid permissions, file type and decoding, a face sample failing liveness
short-circuits face registration and authentication with an explicit liveness
failure before any matching or caching; the iris registration and
authentication endpoints perform no liveness check and proceed directly to
template matching and caching whatever the sample quality. -/
theorem liveness_gate_face_only {Enc : Type} (dist : Enc → Enc → ℚ) (tol : ℚ)
    (fcache : List (Int × Enc)) (hash : List Int → String) (icache : List (Int × String))
    (img : ImageOracle Enc) (iimg : ImageOracle Unit) (is_admin : Bool) (cu uid : Int)
    (user_id : Option Int)
    (hperm : is_admin = true ∨ cu = uid) (hlive : img.variance ≤ 100) :
    authenticate_face_endpoint dist tol fcache true (some img) user_id =
      EndpointResult.ok { success := false, confidence := 0, method := "face", error := some "Liveness check failed" } ∧
    register_face_endpoint fcache is_admin cu uid true (some img) =
      (EndpointResult.ok { success := false, message := "Liveness check failed", error := some "Please provide a live image" }, fcache) ∧
    authenticate_iris_endpoint hash icache true (some iimg) user_id =
      EndpointResult.ok { success := (authenticate_iris hash icache iimg.bytes user_id).success, user_id := (authenticate_iris hash icache iimg.bytes user_id).user_id, confidence := (authenticate_iris hash icache iimg.bytes user_id).confidence, method := "iris", error := (authenticate_iris hash icache iimg.bytes user_id).error } ∧
    register_iris_endpoint hash icache is_admin cu uid true (some iimg) =
      (EndpointResult.ok { success := true, message := "Iris registered successfully", template_id := some (toString uid), quality_score := some (98/100), error := none },
       assocSet icache uid (hash iimg.bytes)) := by
  have hl : (detect_liveness img).is_live = false := by
    simp only [detect_liveness, decide_eq_false_iff_not, not_lt]
    exact hlive
  refine ⟨?_, ?_, ?_, ?_⟩
  · simp [authenticate_face_endpoint, hl]
  · rcases hperm with h | h
    · simp [register_face_endpoint, h, hl]
    · simp [register_face_endpoint, h, hl]
  · simp [authenticate_iris_endpoint]
  · rcases hperm with h | h
    · simp [register_iris_endpoint, register_iris, h]
    · simp [register_iris_endpoint, register_iris, h]

/-- A blurry decoded image: Laplacian variance 50, below the liveness
threshold. -/
def blurryIris : ImageOracle Unit := { variance := 50, bytes := [1, 2] }

theorem liveness_gate_face_only_witness :
    authenticate_face_endpoint (fun _ _ => (0 : ℚ)) 0 ([] : List (Int × Unit)) true (some blurryIris) none =
      EndpointResult.ok { success := false, confidence := 0, method := "face", error := some "Liveness check failed" } ∧
    register_face_endpoint ([] : List (Int × Unit)) true 0 4 true (some blurryIris) =
      (EndpointResult.ok { success := false, message := "Liveness check failed", error := some "Please provide a live image" }, ([] : List (Int × Unit))) ∧
    authenticate_iris_endpoint (fun _ => "h") [(2, "h")] true (some blurryIris) none =
      EndpointResult.ok { success := (authenticate_iris (fun _ => "h") [(2, "h")] blurryIris.bytes none).success, user_id := (authenticate_iris (fun _ => "h") [(2, "h")] blurryIris.bytes none).user_id, confidence := (authenticate_iris (fun _ => "h") [(2, "h")] blurryIris.bytes none).confidence, method := "iris", error := (authenticate_iris (fun _ => "h") [(2, "h")] blurryIris.bytes none).error } ∧
    register_iris_endpoint (fun _ => "h") [(2, "h")] true 0 4 true (some blurryIris) =
      (EndpointResult.ok { success := true, message := "Iris registered successfully", template_id := some (toString (4 : Int)), quality_score := some (98/100), error := none },
       assocSet [(2, "h")] 4 ((fun _ => "h") blurryIris.bytes)) :=
  liveness_gate_face_only (fun _ _ => (0 : ℚ)) 0 ([] : List (Int × Unit)) (fun _ => "h")
    [(2, "h")] blurryIris blurryIris true 0 4 none (Or.inl rfl) (by norm_num [blurryIris])

/-- C8 counterexample: an iris sample that FAILS the liveness check is still
matched and authenticated successfully by the iris authentication endpoint —
no liveness gate is applied to iris samples. -/
theorem iris_endpoint_no_liveness_cex :
    (detect_liveness blurryIris).is_live = false ∧
    authenticate_iris_endpoint (fun _ => "h") [(2, "h")] true (some blurryIris) none =
      EndpointResult.ok { success := true, user_id := some 2, confidence := 1, method := "iris", error := none } := by
  constructor
  · simp [detect_liveness, blurryIris]
    norm_num
  · simp [authenticate_iris_endpoint, authenticate_iris, hashSearch, blurryIris]
